import Mathlib

/-!
A verification development for a small JSON-RPC 2.0 library (`jsonrpc.py`).

The development is a shallow embedding of the library into Lean:

* JSON values decoded by the stdlib `json` module become the inductive
  type `JVal` (the byte-level JSON text codec itself is the stdlib and is
  modelled by its outcome: a decoded `JVal`, a JSON parse error, or a
  Unicode decode error on bytes that are not valid UTF-8).
* The reflective schema validator `_validate_schema` becomes a recursive
  boolean function over an inductive schema-node type `SType` whose
  constructors are exactly the branches the Python code distinguishes
  with `isinstance`.
* `Request`/`Response` become inductives; the module-level sentinel
  strings compared by identity (`is`) become dedicated constructors of
  the id type `RId`, while their observable string value is kept for
  serialization.
* A registered method (a Python callable) becomes a function from its
  positional and keyword arguments to `Except PyExc JVal`: a Python call
  either returns a value or raises an exception, and `f()`, `f(*[])`
  and `f(**dict())` coincide, so the no-argument call is the call with
  empty positional and keyword arguments.
* Code that may raise returns `Except PyExc _`; `try ... except` is a
  `match` on that result.
-/

/-- A JSON value as produced by `json.loads`: None, bool, int, str, list
or dict (floats are outside the scope of the claims and are not
modelled).  Python dicts preserve insertion order and `json.loads`
collapses duplicate keys, so a dict is an association list. -/
inductive JVal where
  | null
  | bool (b : Bool)
  | int (n : Int)
  | str (s : String)
  | arr (elems : List JVal)
  | obj (fields : List (String × JVal))

/-- First-match association-list lookup, modelling `obj[key]` and
`key in obj` on a Python dict (decoded dicts have unique keys). -/
def lookupField (fields : List (String × JVal)) (key : String) : Option JVal :=
  match fields with
  | [] => none
  | (k, v) :: rest => if k == key then some v else lookupField rest key

/-- `key in obj` on a Python dict. -/
def hasField (fields : List (String × JVal)) (key : String) : Bool :=
  (lookupField fields key).isSome

mutual

/-- Python `==` on decoded JSON values.  `True == 1` holds in Python
(bool is a subclass of int), hence the numeric cross-cases.  Python dict
equality ignores order; every `==` this library performs compares
against a string (a schema literal or a membership needle), so an
ordered comparison of dicts is observationally equivalent here. -/
def jeq : JVal → JVal → Bool
  | .null, .null => true
  | .bool a, .bool b => a == b
  | .bool a, .int n => (if a then (1 : Int) else 0) == n
  | .int n, .bool b => n == (if b then (1 : Int) else 0)
  | .int a, .int b => a == b
  | .str a, .str b => a == b
  | .arr xs, .arr ys => jeqList xs ys
  | .obj fs, .obj gs => jeqObj fs gs
  | _, _ => false
termination_by structural a => a

def jeqList : List JVal → List JVal → Bool
  | [], [] => true
  | x :: xs, y :: ys => jeq x y && jeqList xs ys
  | _, _ => false
termination_by structural a => a

def jeqObj : List (String × JVal) → List (String × JVal) → Bool
  | [], [] => true
  | (k, v) :: fs, (k2, w) :: gs => k == k2 && jeq v w && jeqObj fs gs
  | _, _ => false
termination_by structural a => a

end

/-- A single-quote character, written without an apostrophe token. -/
def squote : String := String.mk [Char.ofNat 39]

mutual

/-- Python `repr(x)` for a decoded JSON value.  String escaping inside
the repr is elided: no claim exercises quotes inside strings. -/
def pyRepr : JVal → String
  | .null => "None"
  | .bool b => if b then "True" else "False"
  | .int n => toString n
  | .str s => squote ++ s ++ squote
  | .arr xs => "[" ++ pyReprList xs ++ "]"
  | .obj fs => "\x7b" ++ pyReprObj fs ++ "\x7d"
termination_by structural v => v

def pyReprList : List JVal → String
  | [] => ""
  | [x] => pyRepr x
  | x :: xs => pyRepr x ++ ", " ++ pyReprList xs
termination_by structural l => l

def pyReprObj : List (String × JVal) → String
  | [] => ""
  | [(k, v)] => squote ++ k ++ squote ++ ": " ++ pyRepr v
  | (k, v) :: fs => squote ++ k ++ squote ++ ": " ++ pyRepr v ++ ", " ++ pyReprObj fs
termination_by structural l => l

end

/-- Python `str(x)` for a decoded JSON value (no floats): strings print
verbatim, other values print as their repr. -/
def pyStr : JVal → String
  | .str s => s
  | v => pyRepr v

/-- Does the first character list start with the second one. -/
def charsStartWith : List Char → List Char → Bool
  | _, [] => true
  | [], _ :: _ => false
  | c :: cs, d :: ds => c == d && charsStartWith cs ds

/-- Does the first character list contain the second one as a
contiguous run. -/
def charsContain : List Char → List Char → Bool
  | [], needle => needle.isEmpty
  | c :: rest, needle => charsStartWith (c :: rest) needle || charsContain rest needle

/-- Python substring test `needle in hay` for strings. -/
def strContains (hay needle : String) : Bool :=
  charsContain hay.data needle.data

/-- The Python type name of a decoded JSON value, as used in error
messages. -/
def pyTypeName : JVal → String
  | .null => "NoneType"
  | .bool _ => "bool"
  | .int _ => "int"
  | .str _ => "str"
  | .arr _ => "list"
  | .obj _ => "dict"

/-- The class of a raised Python exception, as far as the library
inspects it: the six library exception classes (`jsonrpc.py` lines
14-32), `TypeError` and `IndexError` (which the error translation can
itself raise), and any other class identified by its name. -/
inductive ExcKind where
  | parseError
  | invalidRequestError
  | methodNotFoundError
  | invalidParamsError
  | internalError
  | serverError
  | typeError
  | indexError
  | other (name : String)

/-- `type(err).__name__`. -/
def ExcKind.pyName : ExcKind → String
  | .parseError => "ParseError"
  | .invalidRequestError => "InvalidRequestError"
  | .methodNotFoundError => "MethodNotFoundError"
  | .invalidParamsError => "InvalidParamsError"
  | .internalError => "InternalError"
  | .serverError => "ServerError"
  | .typeError => "TypeError"
  | .indexError => "IndexError"
  | .other name => name

/-- A raised Python exception: its class and its `args` tuple. -/
structure PyExc where
  kind : ExcKind
  args : List JVal

/-- Python `needle in container` (line 276-277 of the source applies it
to `err.args[0]`): substring test on a string, membership on a list or
dict, and a raised `TypeError` on a non-container value. -/
def pyIn (needle : String) : JVal → Except PyExc Bool
  | .str s => .ok (strContains s needle)
  | .arr xs => .ok (xs.any (fun x => jeq x (.str needle)))
  | .obj fs => .ok (fs.any (fun kv => kv.1 == needle))
  | v => .error ⟨.typeError,
      [.str ("argument of type " ++ squote ++ pyTypeName v ++ squote ++ " is not iterable")]⟩

/-- The sentinel strings of `jsonrpc.py` lines 35-38.  In Python they
are compared by identity (`is`), which the embedding renders as
dedicated constructors; their string value only matters when one of
them is serialized. -/
def MISSING_S : String := "=-=MISSING=-="

def PARSE_ERROR_S : String := "=-=PARSE_ERROR=-="

def INVALID_REQUEST_S : String := "=-=INVALID_REQUEST=-="

def BATCH_S : String := "=-=BATCH=-="

/-- The primitive types a schema entry can require through
`isinstance`: `str`, `int`, `list`, `tuple`, `dict`, `NoneType`. -/
inductive PTag where
  | pstr
  | pint
  | plist
  | ptuple
  | pdict
  | pnone

/-- `isinstance(value, t)` for one primitive type.  `bool` is a
subclass of `int` in Python, so a bool satisfies the `int` check.
Decoded JSON never contains tuples, so the `tuple` check never
matches a decoded value. -/
def PTag.matches : PTag → JVal → Bool
  | .pstr, .str _ => true
  | .pint, .int _ => true
  | .pint, .bool _ => true
  | .plist, .arr _ => true
  | .pdict, .obj _ => true
  | .pnone, .null => true
  | _, _ => false

/-- One schema entry type, one constructor per branch of the dispatch
in `_validate_schema` (lines 71-87): `Any`, a type or union of types, a
nested dict schema, and the final `else` branch which compares the
schema entry itself for equality with the value (this is how a literal
such as the string `2.0` is expressed).  `unsupported` stands for a
schema constant outside every supported category (for example a Python
set): such a constant also lands in the equality branch and is equal to
no decoded JSON value, so comparison always fails. -/
inductive SType where
  | lit (v : JVal)
  | prims (tags : List PTag)
  | nested (fields : List (String × SType))
  | anyVal
  | unsupported

/-- Python `key.endswith` applied to the question-mark marker. -/
def endsWithQ (s : String) : Bool :=
  match s.data.getLast? with
  | some c => c == Char.ofNat 63
  | none => false

/-- Python `key.removesuffix` for the one-character question-mark
marker: drop the final character when it is the marker. -/
def stripQ (s : String) : String :=
  if endsWithQ s then String.mk s.data.dropLast else s

/-- The keys a schema admits: every key with an optional `?` marker
stripped (line 64). -/
def allKeysOf (schema : List (String × SType)) : List String :=
  schema.map (fun kv => stripQ kv.1)

/-- The keys a schema requires: those without the `?` marker
(line 65). -/
def requiredKeysOf (schema : List (String × SType)) : List String :=
  (schema.filter (fun kv => !endsWithQ kv.1)).map Prod.fst

/-- The key-set conditions of lines 66-70: every required key is in the
object and every object key is an admitted key. -/
def schemaKeysOk (fields : List (String × JVal)) (schema : List (String × SType)) : Bool :=
  (requiredKeysOf schema).all (fun k => hasField fields k)
    && fields.all (fun f => (allKeysOf schema).contains f.1)

mutual

/-- The type check for one present value, following the dispatch of
lines 71-87.  The `nested` case is the recursive call to
`_validate_schema` of line 83: reject a non-dict, check the key sets,
then check every entry. -/
def checkValue (value : JVal) : SType → Bool
  | .lit l => jeq value l
  | .prims tags => tags.any (fun t => t.matches value)
  | .anyVal => true
  | .unsupported => false
  | .nested s =>
    match value with
    | .obj fields => schemaKeysOk fields s && entriesOk fields s
    | _ => false
termination_by structural ty => ty

/-- The per-entry loop of lines 71-87: skip an `Any` entry, skip an
absent optional entry, otherwise look the value up (under the stripped
key for an optional entry) and type-check it.  The lookup cannot miss
for a required key once `schemaKeysOk` holds; a miss yields `false`,
which agrees with the early `return False` of the source. -/
def entriesOk (fields : List (String × JVal)) : List (String × SType) → Bool
  | [] => true
  | (key, ty) :: rest =>
    (match ty with
     | .anyVal => true
     | _ =>
       let k := stripQ key
       if endsWithQ key && !hasField fields k then true
       else
         match lookupField fields k with
         | none => false
         | some value => checkValue value ty)
      && entriesOk fields rest
termination_by structural l => l

end

/-- `_validate_schema(obj, schema)` (lines 61-88): an object validates
against a schema when it is a dict, its key set fits, and every entry
checks.  This is exactly the `nested` case of `checkValue`. -/
def _validate_schema (obj : JVal) (schema : List (String × SType)) : Bool :=
  checkValue obj (.nested schema)

/-- `_request_schema` (lines 47-52). -/
def _request_schema : List (String × SType) :=
  [("jsonrpc", .lit (.str "2.0")),
   ("method", .prims [.pstr]),
   ("id?", .prims [.pint, .pstr, .pnone]),
   ("params?", .prims [.plist, .ptuple, .pdict])]

/-- `_response_schema` (lines 53-58). -/
def _response_schema : List (String × SType) :=
  [("jsonrpc", .lit (.str "2.0")),
   ("id", .prims [.pint, .pstr, .pnone]),
   ("result?", .anyVal),
   ("error?", .nested
      [("code", .prims [.pint]),
       ("message", .prims [.pstr]),
       ("data?", .anyVal)])]

/-- A request id slot.  `val v` is an ordinary id value; the other
constructors are the module-level sentinel strings, which the code
only ever compares by identity (`is`), so a wire string that happens
to spell a sentinel stays a `val`. -/
inductive RId where
  | missing
  | parseErrId
  | invalidReqId
  | batchId
  | val (v : JVal)

/-- `self.id is _MISSING`. -/
def RId.isMissing : RId → Bool
  | .missing => true
  | _ => false

/-- `self.id is _PARSE_ERROR`. -/
def RId.isParseErr : RId → Bool
  | .parseErrId => true
  | _ => false

/-- `self.id is _INVALID_REQUEST`. -/
def RId.isInvalidReq : RId → Bool
  | .invalidReqId => true
  | _ => false

/-- `self.id is _BATCH`. -/
def RId.isBatch : RId → Bool
  | .batchId => true
  | _ => false

/-- The id slot as the JSON value `json.dumps` would render: sentinel
ids are plain strings in Python. -/
def RId.toJVal : RId → JVal
  | .missing => .str MISSING_S
  | .parseErrId => .str PARSE_ERROR_S
  | .invalidReqId => .str INVALID_REQUEST_S
  | .batchId => .str BATCH_S
  | .val v => v

/-- The `params` slot of a request: absent (Python `None`), a sequence
(list or tuple, invoked positionally), or a dict (invoked by
keyword). -/
inductive RParams where
  | noParams
  | pos (elems : List JVal)
  | named (fields : List (String × JVal))

/-- The positional arguments the resolver would pass for these
params (`func()` and `func(*[])` are the same Python call). -/
def RParams.posArgs : RParams → List JVal
  | .noParams => []
  | .pos xs => xs
  | .named _ => []

/-- The keyword arguments the resolver would pass for these params. -/
def RParams.kwArgs : RParams → List (String × JVal)
  | .named kvs => kvs
  | _ => []

/-- `Request` (lines 186-197): method name, params, id slot and the
`_batch` member list (empty unless built by `Request.batch`). -/
inductive Request where
  | mk (method : String) (params : RParams) (id : RId) (batch : List Request)

/-- The `method` attribute. -/
def Request.method : Request → String
  | .mk m _ _ _ => m

/-- The `params` attribute. -/
def Request.params : Request → RParams
  | .mk _ p _ _ => p

/-- The `id` attribute. -/
def Request.id : Request → RId
  | .mk _ _ i _ => i

/-- The `_batch` attribute. -/
def Request._batch : Request → List Request
  | .mk _ _ _ b => b

/-- `Request.batch(requests)` (lines 199-203): a container request
with the `_BATCH` sentinel as method and id. -/
def Request.batch (requests : List Request) : Request :=
  .mk BATCH_S .noParams .batchId requests

mutual

/-- `Response` (lines 97-127): `_result` (the `_MISSING` sentinel on
the failure side), `code`, `message`, `data` and `id`.  The `data`
slot uses `none` for Python `None` (the constructor default); the
success/failure constraint of `__init__` is enforced where the code
enforces it (`Response.makeE` below) and holds for every response the
resolver builds. -/
inductive Response where
  | mk (result : RespResult) (code : Option Int) (message : Option String)
       (data : Option JVal) (id : RId)

/-- The `_result` attribute: the `_MISSING` sentinel, a JSON value, or
a list of responses (as built for a batch by `deserialize` and
`resolve`). -/
inductive RespResult where
  | missing
  | val (v : JVal)
  | batchOf (rs : List Response)

end

/-- The `_result` attribute. -/
def Response._result : Response → RespResult
  | .mk r _ _ _ _ => r

/-- The `code` attribute. -/
def Response.code : Response → Option Int
  | .mk _ c _ _ _ => c

/-- The `message` attribute. -/
def Response.message : Response → Option String
  | .mk _ _ m _ _ => m

/-- The `data` attribute. -/
def Response.data : Response → Option JVal
  | .mk _ _ _ d _ => d

/-- The `id` attribute. -/
def Response.id : Response → RId
  | .mk _ _ _ _ i => i

/-- `Response.is_error` (line 133): the code slot is set. -/
def Response.is_error (r : Response) : Bool :=
  r.code.isSome

/-- `Response.__init__` (lines 109-127) as the code runs it on loaded
data: raise `InternalError` unless exactly one of `result` and `code`
is set (`result` is set when the keyword was passed, that is when the
loaded dict had the key). -/
def Response.makeE (result : Option JVal) (code : Option Int) (message : Option String)
    (data : Option JVal) (id : RId) : Except Unit Response :=
  if (result.isSome && code.isSome) || (result.isNone && code.isNone) then .error ()
  else .ok (.mk (match result with
                 | some v => .val v
                 | none => .missing) code message data id)

mutual

/-- `Response.dump` (lines 140-160) composed with the recursive
rendering `json.dumps(..., default=_dump_if_can)` performs: a batch
response renders as the array of its member dumps, a success as the
`result` object, a failure as the `error` object with `data` omitted
when it is `None`. -/
def Response.dump : Response → JVal
  | .mk result code message data rid =>
    match code with
    | none =>
      if rid.isBatch then
        match result with
        | .batchOf rs => .arr (Response.dumpList rs)
        | .val v => v
        | .missing => .str MISSING_S
      else
        .obj [("jsonrpc", .str "2.0"), ("id", rid.toJVal),
              ("result", (match result with
                          | .val v => v
                          | .batchOf rs => .arr (Response.dumpList rs)
                          | .missing => .str MISSING_S))]
    | some c =>
      .obj [("jsonrpc", .str "2.0"), ("id", rid.toJVal),
            ("error", .obj ([("code", .int c),
                             ("message", (match message with
                                          | some s => .str s
                                          | none => .null))]
              ++ (match data with
                  | some d => [("data", d)]
                  | none => [])))]
termination_by structural r => r

def Response.dumpList : List Response → List JVal
  | [] => []
  | r :: rs => Response.dump r :: Response.dumpList rs
termination_by structural l => l

end

/-- `Response.serialize` (lines 172-173) up to the external JSON text
codec: the JSON value whose stdlib text encoding is sent. -/
def Response.serialize (r : Response) : JVal :=
  r.dump

/-- `Response.load` (lines 162-170): validate against
`_response_schema`, drop `jsonrpc`, merge the `error` sub-object into
the keyword set and call the constructor; an invalid dict raises
`InternalError`.  A `data` of JSON null is the constructor default
`None`.  A bool `code` passes the `int` check in Python (bool is an
int subclass) and is kept as its integer value, the only form the
`Int`-typed model slot can carry. -/
def Response.load (v : JVal) : Except Unit Response :=
  if _validate_schema v _response_schema then
    match v with
    | .obj fields =>
      let result := lookupField fields "result"
      let rid : RId := match lookupField fields "id" with
        | some w => .val w
        | none => .val .null
      match lookupField fields "error" with
      | some (.obj efields) =>
        Response.makeE result
          (match lookupField efields "code" with
           | some (.int c) => some c
           | some (.bool b) => some (if b then 1 else 0)
           | _ => none)
          (match lookupField efields "message" with
           | some (.str s) => some s
           | _ => none)
          (match lookupField efields "data" with
           | some .null => none
           | some d => some d
           | none => none)
          rid
      | _ => Response.makeE result none none none rid
    | _ => .error ()
  else .error ()

/-- The outcome of the stdlib `json.loads` call on inbound bytes.
CPython first decodes the bytes as text (`bytes_.decode` on the
detected encoding) and then parses the text, so there are three
outcomes: a decoded value, a `json.JSONDecodeError` from parsing, or a
`UnicodeDecodeError` from the implicit decode step on bytes that are
not valid UTF-8 (for example the single byte 0xff).  The latter is not
a `JSONDecodeError` and is caught by neither deserializer. -/
inductive Loads where
  | val (v : JVal)
  | decodeError
  | undecodable

/-- `Response.loadList`: the element-wise load of a decoded array
(line 180); the first raised `InternalError` propagates. -/
def Response.loadList : List JVal → Except Unit (List Response)
  | [] => .ok []
  | v :: vs =>
    match Response.load v with
    | .error e => .error e
    | .ok r =>
      match Response.loadList vs with
      | .error e => .error e
      | .ok rs => .ok (r :: rs)

/-- `Response.deserialize` (lines 175-183): neither kind of decode
failure is caught here, so both propagate; an array becomes a batch
response holding the member loads; anything else goes through
`Response.load`. -/
def Response.deserialize : Loads → Except Unit Response
  | .decodeError => .error ()
  | .undecodable => .error ()
  | .val (.arr elems) =>
    match Response.loadList elems with
    | .error e => .error e
    | .ok rs => .ok (.mk (.batchOf rs) none none none .batchId)
  | .val v => Response.load v

mutual

/-- `Request.dump` (lines 300-311) composed with the recursive
rendering of `json.dumps(..., default=_dump_if_can)`: a batch dumps as
the array of member dumps; otherwise `jsonrpc` and `method` always
appear, `id` when not the `_MISSING` sentinel, `params` when not
`None`, in that insertion order. -/
def Request.dump : Request → JVal
  | .mk method params rid batch =>
    if rid.isBatch then .arr (Request.dumpList batch)
    else
      .obj ([("jsonrpc", .str "2.0"), ("method", .str method)]
        ++ (match rid with
            | .missing => []
            | _ => [("id", rid.toJVal)])
        ++ (match params with
            | .noParams => []
            | .pos xs => [("params", .arr xs)]
            | .named kvs => [("params", .obj kvs)]))
termination_by structural r => r

def Request.dumpList : List Request → List JVal
  | [] => []
  | r :: rs => Request.dump r :: Request.dumpList rs
termination_by structural l => l

end

/-- `Request.serialize` (lines 324-325) up to the external JSON text
codec. -/
def Request.serialize (r : Request) : JVal :=
  r.dump

/-- `Request.load` (lines 313-322): a dict that validates against
`_request_schema` is rebuilt field by field (an absent `id` stays the
`_MISSING` default, an absent `params` stays `None`); anything else
becomes the `_INVALID_REQUEST` sentinel request carried forward to
resolution time. -/
def Request.load (v : JVal) : Request :=
  if _validate_schema v _request_schema then
    match v with
    | .obj fields =>
      .mk (match lookupField fields "method" with
           | some (.str s) => s
           | _ => INVALID_REQUEST_S)
          (match lookupField fields "params" with
           | some (.arr xs) => .pos xs
           | some (.obj kvs) => .named kvs
           | _ => .noParams)
          (match lookupField fields "id" with
           | some w => .val w
           | none => .missing)
          []
    | _ => .mk INVALID_REQUEST_S (.pos [.str INVALID_REQUEST_S]) .invalidReqId []
  else .mk INVALID_REQUEST_S (.pos [.str INVALID_REQUEST_S]) .invalidReqId []

/-- `Request.deserialize` (lines 327-338): a `json.JSONDecodeError`
becomes the `_PARSE_ERROR` sentinel request, but a
`UnicodeDecodeError` from undecodable bytes is not matched by the
`except json.JSONDecodeError` clause of line 337 and propagates out of
`deserialize` (its five-element `args` tuple holds bytes and is elided
here); a decoded array becomes a batch of member loads; anything else
goes through `Request.load`. -/
def Request.deserialize : Loads → Except PyExc Request
  | .decodeError => .ok (.mk PARSE_ERROR_S (.pos [.str PARSE_ERROR_S]) .parseErrId [])
  | .undecodable => .error ⟨.other "UnicodeDecodeError", []⟩
  | .val (.arr elems) => .ok (.mk BATCH_S .noParams .batchId (elems.map Request.load))
  | .val v => .ok (Request.load v)

/-- A registered capability: a Python callable applied to positional
and keyword arguments, returning a value or raising. -/
def Capability : Type :=
  List JVal → List (String × JVal) → Except PyExc JVal

/-- The `method_lookup` registry: a name-to-callable mapping, modelled
as an association list consulted with first-match lookup. -/
def Registry : Type :=
  List (String × Capability)

/-- `method_lookup[name]` resolution including the `in` test. -/
def Registry.find (lookup : Registry) (name : String) : Option Capability :=
  match lookup with
  | [] => none
  | (k, f) :: rest => if k == name then some f else Registry.find rest name

/-- `Request._raise_if_cannot_resolve` (lines 254-262): raise
`ParseError` or `InvalidRequestError` for the corresponding sentinel
ids, `MethodNotFoundError` when the method is not registered. -/
def Request._raise_if_cannot_resolve (self : Request) (lookup : Registry) :
    Except PyExc Unit :=
  if self.id.isParseErr then .error ⟨.parseError, []⟩
  else if self.id.isInvalidReq then .error ⟨.invalidRequestError, []⟩
  else if (lookup.find self.method).isNone then .error ⟨.methodNotFoundError, []⟩
  else .ok ()

/-- `Request.get_error_data` (lines 293-298). -/
def Request.get_error_data (err : PyExc) : JVal :=
  .obj [("type", .str err.kind.pyName),
        ("info", match err.args with
                 | a :: _ => .str (pyStr a)
                 | [] => .null)]

/-- `Request._make_from_exception` (lines 264-291).  The translation
itself can raise: for a `TypeError` with an empty `args` tuple the
subscript `err.args[0]` raises `IndexError`, and for a non-container
first argument the `in` test raises `TypeError`; both escape the
resolver, hence the `Except` result. -/
def Request._make_from_exception (self : Request) (err : PyExc) :
    Except PyExc (Option Response) :=
  match err.kind with
  | .parseError =>
    .ok (some (.mk .missing (some (-32700)) (some "Parse error") none (.val .null)))
  | .invalidRequestError =>
    .ok (some (.mk .missing (some (-32600)) (some "Invalid Request") none (.val .null)))
  | _ =>
    if self.id.isMissing then .ok none
    else
      match err.kind with
      | .methodNotFoundError =>
        .ok (some (.mk .missing (some (-32601)) (some "Method not found") none self.id))
      | .typeError =>
        (match err.args with
         | [] => .error ⟨.indexError, [.str "tuple index out of range"]⟩
         | a0 :: _ =>
           match pyIn "positional argument" a0 with
           | .error e => .error e
           | .ok true =>
             .ok (some (.mk .missing (some (-32602)) (some "Invalid params")
               (some (Request.get_error_data err)) self.id))
           | .ok false =>
             match pyIn "keyword argument" a0 with
             | .error e => .error e
             | .ok true =>
               .ok (some (.mk .missing (some (-32602)) (some "Invalid params")
                 (some (Request.get_error_data err)) self.id))
             | .ok false =>
               .ok (some (.mk .missing (some (-32000)) (some "Server error")
                 (some (Request.get_error_data err)) self.id)))
      | _ =>
        .ok (some (.mk .missing (some (-32000)) (some "Server error")
          (some (Request.get_error_data err)) self.id))

/-- The body of the `try` block of `Request.resolve` (lines 213-223):
check resolvability, look the capability up, invoke it positionally,
by keyword, or with no arguments, and build a success response unless
the request is a notification (in which case the block falls through
and yields `None`).  The `KeyError` arm of the lookup is unreachable
because `_raise_if_cannot_resolve` has just checked membership. -/
def Request.tryResolveBody (self : Request) (lookup : Registry) :
    Except PyExc (Option Response) :=
  match self._raise_if_cannot_resolve lookup with
  | .error e => .error e
  | .ok _ =>
    match lookup.find self.method with
    | none => .error ⟨.other "KeyError", [.str self.method]⟩
    | some func =>
      match (match self.params with
             | .noParams => func [] []
             | .pos xs => func xs []
             | .named kvs => func [] kvs) with
      | .error e => .error e
      | .ok res =>
        if self.id.isMissing then .ok none
        else .ok (some (.mk (.val res) none none none self.id))

mutual

/-- `Request.resolve` (lines 205-225).  A batch resolves each member
in input order (a member resolution that raises propagates out of the
list comprehension), keeps the truthy results — a `Response` object is
always truthy, so exactly the `None` results drop — and yields the
batch response, or `None` when the kept list is empty.  A plain
request runs the `try` body and translates a raised exception through
`_make_from_exception`. -/
def Request.resolve (lookup : Registry) : Request → Except PyExc (Option Response)
  | .mk m p i batch =>
    if i.isBatch then
      match Request.resolveList lookup batch with
      | .error e => .error e
      | .ok results =>
        let filtered := results.filterMap (fun x => x)
        if filtered.isEmpty then .ok none
        else .ok (some (.mk (.batchOf filtered) none none none .batchId))
    else
      match Request.tryResolveBody (.mk m p i batch) lookup with
      | .ok v => .ok v
      | .error e => Request._make_from_exception (.mk m p i batch) e
termination_by structural r => r

/-- The member resolutions of a batch, in input order. -/
def Request.resolveList (lookup : Registry) :
    List Request → Except PyExc (List (Option Response))
  | [] => .ok []
  | r :: rs =>
    match Request.resolve lookup r with
    | .error e => .error e
    | .ok x =>
      match Request.resolveList lookup rs with
      | .error e => .error e
      | .ok xs => .ok (x :: xs)
termination_by structural l => l

end

/-- The body of the `try` block of `Request.resolve_async` (lines
240-250): textually the body of `Request.tryResolveBody` with each
invocation awaited.  In the embedding a suspending capability is a
function of the same type — awaiting its completed value — so the
body is repeated rather than shared, mirroring the duplicated source
text. -/
def Request.tryResolveBodyAsync (self : Request) (lookup : Registry) :
    Except PyExc (Option Response) :=
  match self._raise_if_cannot_resolve lookup with
  | .error e => .error e
  | .ok _ =>
    match lookup.find self.method with
    | none => .error ⟨.other "KeyError", [.str self.method]⟩
    | some func =>
      match (match self.params with
             | .noParams => func [] []
             | .pos xs => func xs []
             | .named kvs => func [] kvs) with
      | .error e => .error e
      | .ok res =>
        if self.id.isMissing then .ok none
        else .ok (some (.mk (.val res) none none none self.id))

mutual

/-- `Request.resolve_async` (lines 227-252).  `asyncio.gather` starts
one task per member and `await` collects their results in member
order, so the gathered list is the member resolutions in input order;
a member failure propagates out of the `await`.  The cooperative
scheduling itself has no observable effect on the result, which is
what claim C7 asserts. -/
def Request.resolve_async (lookup : Registry) : Request → Except PyExc (Option Response)
  | .mk m p i batch =>
    if i.isBatch then
      match Request.resolveAsyncList lookup batch with
      | .error e => .error e
      | .ok results =>
        let filtered := results.filterMap (fun x => x)
        if filtered.isEmpty then .ok none
        else .ok (some (.mk (.batchOf filtered) none none none .batchId))
    else
      match Request.tryResolveBodyAsync (.mk m p i batch) lookup with
      | .ok v => .ok v
      | .error e => Request._make_from_exception (.mk m p i batch) e
termination_by structural r => r

/-- The gathered member resolutions of a batch, in input order. -/
def Request.resolveAsyncList (lookup : Registry) :
    List Request → Except PyExc (List (Option Response))
  | [] => .ok []
  | r :: rs =>
    match Request.resolve_async lookup r with
    | .error e => .error e
    | .ok x =>
      match Request.resolveAsyncList lookup rs with
      | .error e => .error e
      | .ok xs => .ok (x :: xs)
termination_by structural l => l

end

/-- The id shapes a plain wire request carries after `Request.load`:
absent, or a value that passes the `int | str | NoneType` check of the
request schema (a bool passes the `int` check). -/
def RId.isPlainWire : RId → Bool
  | .missing => true
  | .val (.int _) => true
  | .val (.str _) => true
  | .val (.bool _) => true
  | .val .null => true
  | _ => false

/-- The id shapes a plain wire response carries: a value passing the
`int | str | NoneType` check of the response schema. -/
def RId.isRespWire : RId → Bool
  | .val (.int _) => true
  | .val (.str _) => true
  | .val (.bool _) => true
  | .val .null => true
  | _ => false

/-- A well-formed plain (non-batch) request: a wire-expressible id and
an unused member list. -/
def Request.plainWF (r : Request) : Prop :=
  r.id.isPlainWire = true ∧ r._batch = []

/-- A well-formed request: plain, or a batch container as
`Request.batch` builds it from plain members. -/
def Request.wellFormed (r : Request) : Prop :=
  r.plainWF
  ∨ (r.method = BATCH_S ∧ r.params = .noParams ∧ r.id = .batchId
     ∧ ∀ q ∈ r._batch, q.plainWF)

/-- A well-formed plain response: a wire-expressible id and either the
success shape (a result value, nothing else set) or the failure shape
(code and message set, the sentinel result, and a `data` slot that is
not the unrepresentable `some JVal.null`, which Python cannot
distinguish from the absent default `None`). -/
def Response.plainWF (r : Response) : Prop :=
  r.id.isRespWire = true
  ∧ ((∃ v, r._result = .val v) ∧ r.code = none ∧ r.message = none ∧ r.data = none
     ∨ (r._result = .missing ∧ (∃ c, r.code = some c) ∧ (∃ s, r.message = some s)
        ∧ r.data ≠ some .null))

/-- A well-formed response: plain, or the batch container
`Response.deserialize` builds from plain members. -/
def Response.wellFormed (r : Response) : Prop :=
  r.plainWF
  ∨ (r.id = .batchId ∧ r.code = none ∧ r.message = none ∧ r.data = none
     ∧ ∃ rs, r._result = .batchOf rs ∧ ∀ q ∈ rs, q.plainWF)

/-- A failure whose translation cannot itself raise: a `TypeError`
must carry a string first argument, because line 276 subscripts
`err.args[0]` and applies `in` to the result. -/
def PyExc.typeErrTame (e : PyExc) : Prop :=
  e.kind = .typeError → ∃ s rest, e.args = .str s :: rest

/-- A failure that does not impersonate the protocol-level decode
conditions: not the library `ParseError` or `InvalidRequestError`
classes, which `_make_from_exception` maps to null-id responses before
it checks for a notification. -/
def PyExc.noProtocolKind (e : PyExc) : Prop :=
  e.kind ≠ .parseError ∧ e.kind ≠ .invalidRequestError

/-- A tame registry: every failure any registered capability can raise
is tame in both senses. -/
def Registry.tame (lookup : Registry) : Prop :=
  ∀ (m : String) (f : Capability), lookup.find m = some f →
    ∀ (xs : List JVal) (kvs : List (String × JVal)) (e : PyExc),
      f xs kvs = .error e → e.typeErrTame ∧ e.noProtocolKind

/-- The response a request resolves to, when it resolves to one. -/
def respOf (lookup : Registry) (r : Request) : Response :=
  match Request.resolve lookup r with
  | .ok (some resp) => resp
  | _ => .mk .missing none none none .missing

mutual

/-- No code in a response tree (batch entries included) equals the
given code. -/
def Response.codeIsNot (c : Int) : Response → Bool
  | .mk result code _ _ _ =>
    (match code with
     | some c2 => !(c2 == c)
     | none => true)
    && (match result with
        | .batchOf rs => Response.listCodeIsNot c rs
        | _ => true)
termination_by structural r => r

def Response.listCodeIsNot (c : Int) : List Response → Bool
  | [] => true
  | r :: rs => Response.codeIsNot c r && Response.listCodeIsNot c rs
termination_by structural l => l

end

/-- Round trip of one plain request through its dictionary form and
through the wire: the dump validates against `_request_schema` and
reloads field for field, with absent `id` and `params` staying
absent. -/
theorem request_round_trip_plain (m : String) (p : RParams) (i : RId)
    (h : i.isPlainWire = true) :
    Request.load (Request.dump (.mk m p i []))  = .mk m p i []
    ∧ Request.deserialize (.val (Request.serialize (.mk m p i []))) = .ok (.mk m p i []) := by
  cases i with
  | missing => cases p <;> exact ⟨rfl, rfl⟩
  | val v =>
    cases v with
    | int n => cases p <;> exact ⟨rfl, rfl⟩
    | str s => cases p <;> exact ⟨rfl, rfl⟩
    | bool b => cases p <;> exact ⟨rfl, rfl⟩
    | null => cases p <;> exact ⟨rfl, rfl⟩
    | arr l => simp [RId.isPlainWire] at h
    | obj l => simp [RId.isPlainWire] at h
  | parseErrId => simp [RId.isPlainWire] at h
  | invalidReqId => simp [RId.isPlainWire] at h
  | batchId => simp [RId.isPlainWire] at h

/-- Element-wise round trip of the members of a batch request. -/
theorem request_round_trip_members (members : List Request)
    (h : ∀ q ∈ members, q.plainWF) :
    (Request.dumpList members).map Request.load = members := by
  induction members with
  | nil => rfl
  | cons q rest ih =>
    obtain ⟨mq, pq, iq, bq⟩ := q
    obtain ⟨hq, hrest⟩ := List.forall_mem_cons.mp h
    obtain ⟨hqi, hqb⟩ := hq
    have hb : bq = [] := hqb
    subst hb
    calc (Request.dumpList (Request.mk mq pq iq [] :: rest)).map Request.load
        = Request.load (Request.dump (.mk mq pq iq [])) :: (Request.dumpList rest).map Request.load := rfl
      _ = Request.mk mq pq iq [] :: rest := by
          rw [(request_round_trip_plain mq pq iq hqi).1, ih hrest]

/-- Round trip of one plain response through its dictionary form and
through the wire: the dump validates against `_response_schema` and
reloads field for field, with an absent `data` staying absent. -/
theorem response_round_trip_plain (r : Response) (h : r.plainWF) :
    Response.load (Response.dump r) = .ok r
    ∧ Response.deserialize (.val (Response.serialize r)) = .ok r := by
  obtain ⟨result, code, message, data, rid⟩ := r
  obtain ⟨hid, hshape⟩ := h
  have hid2 : RId.isRespWire rid = true := hid
  have hw : ∃ w, rid = RId.val w ∧ RId.isRespWire (RId.val w) = true := by
    cases rid with
    | val w => exact ⟨w, rfl, hid2⟩
    | missing => simp [RId.isRespWire] at hid2
    | parseErrId => simp [RId.isRespWire] at hid2
    | invalidReqId => simp [RId.isRespWire] at hid2
    | batchId => simp [RId.isRespWire] at hid2
  obtain ⟨w, rfl, hw⟩ := hw
  rcases hshape with ⟨⟨v, hres⟩, hcode, hmsg, hdata⟩ | ⟨hres, ⟨c, hcode⟩, ⟨s, hmsg⟩, hdata⟩
  · have hres : result = .val v := hres
    have hcode : code = none := hcode
    have hmsg : message = none := hmsg
    have hdata : data = none := hdata
    subst hres hcode hmsg hdata
    cases w with
    | int n => exact ⟨rfl, rfl⟩
    | str t => exact ⟨rfl, rfl⟩
    | bool b => exact ⟨rfl, rfl⟩
    | null => exact ⟨rfl, rfl⟩
    | arr l => simp [RId.isRespWire] at hw
    | obj l => simp [RId.isRespWire] at hw
  · have hres : result = .missing := hres
    have hcode : code = some c := hcode
    have hmsg : message = some s := hmsg
    subst hres hcode hmsg
    have hdata : data = none ∨ ∃ d, data = some d ∧ d ≠ JVal.null := by
      cases data with
      | none => exact .inl rfl
      | some d =>
        refine .inr ⟨d, rfl, ?_⟩
        intro hnull
        exact hdata (by subst hnull; rfl)
    rcases hdata with rfl | ⟨d, rfl, hd⟩
    · cases w with
      | int n => exact ⟨rfl, rfl⟩
      | str t => exact ⟨rfl, rfl⟩
      | bool b => exact ⟨rfl, rfl⟩
      | null => exact ⟨rfl, rfl⟩
      | arr l => simp [RId.isRespWire] at hw
      | obj l => simp [RId.isRespWire] at hw
    · cases d with
      | null => exact absurd rfl hd
      | bool b2 =>
        cases w with
        | int n => exact ⟨rfl, rfl⟩
        | str t => exact ⟨rfl, rfl⟩
        | bool b => exact ⟨rfl, rfl⟩
        | null => exact ⟨rfl, rfl⟩
        | arr l => simp [RId.isRespWire] at hw
        | obj l => simp [RId.isRespWire] at hw
      | int n2 =>
        cases w with
        | int n => exact ⟨rfl, rfl⟩
        | str t => exact ⟨rfl, rfl⟩
        | bool b => exact ⟨rfl, rfl⟩
        | null => exact ⟨rfl, rfl⟩
        | arr l => simp [RId.isRespWire] at hw
        | obj l => simp [RId.isRespWire] at hw
      | str s2 =>
        cases w with
        | int n => exact ⟨rfl, rfl⟩
        | str t => exact ⟨rfl, rfl⟩
        | bool b => exact ⟨rfl, rfl⟩
        | null => exact ⟨rfl, rfl⟩
        | arr l => simp [RId.isRespWire] at hw
        | obj l => simp [RId.isRespWire] at hw
      | arr l2 =>
        cases w with
        | int n => exact ⟨rfl, rfl⟩
        | str t => exact ⟨rfl, rfl⟩
        | bool b => exact ⟨rfl, rfl⟩
        | null => exact ⟨rfl, rfl⟩
        | arr l => simp [RId.isRespWire] at hw
        | obj l => simp [RId.isRespWire] at hw
      | obj l2 =>
        cases w with
        | int n => exact ⟨rfl, rfl⟩
        | str t => exact ⟨rfl, rfl⟩
        | bool b => exact ⟨rfl, rfl⟩
        | null => exact ⟨rfl, rfl⟩
        | arr l => simp [RId.isRespWire] at hw
        | obj l => simp [RId.isRespWire] at hw

/-- Element-wise round trip of the members of a batch response. -/
theorem response_round_trip_members (rs : List Response)
    (h : ∀ q ∈ rs, q.plainWF) :
    Response.loadList (Response.dumpList rs) = .ok rs := by
  induction rs with
  | nil => rfl
  | cons q rest ih =>
    obtain ⟨hq, hrest⟩ := List.forall_mem_cons.mp h
    have h1 : Response.load (Response.dump q) = .ok q := (response_round_trip_plain q hq).1
    calc Response.loadList (Response.dumpList (q :: rest))
        = Response.loadList (Response.dump q :: Response.dumpList rest) := rfl
      _ = .ok (q :: rest) := by
          simp only [Response.loadList, h1, ih hrest]

/-- C6: for every well-formed Request or Response, decoding the
encoding gives the value back field for field; absent optional fields
(`id`, `params`, `data`) round-trip as absent rather than as null.
Encoding is `serialize` (the dictionary projection rendered by the
stdlib JSON codec) and decoding is `deserialize` on the decoded
value. -/
theorem c6_round_trip :
    (∀ r : Request, r.wellFormed → Request.deserialize (.val r.serialize) = .ok r)
    ∧ (∀ r : Response, r.wellFormed → Response.deserialize (.val r.serialize) = .ok r) := by
  constructor
  · rintro ⟨m, p, i, b⟩ (⟨hi, hb⟩ | ⟨hm, hp, hi, hmem⟩)
    · have hb2 : b = [] := hb
      subst hb2
      exact (request_round_trip_plain m p i hi).2
    · have hm2 : m = BATCH_S := hm
      have hp2 : p = RParams.noParams := hp
      have hi2 : i = RId.batchId := hi
      subst hm2; subst hp2; subst hi2
      have hstep : Request.deserialize (.val (Request.serialize (.mk BATCH_S .noParams .batchId b)))
          = .ok (Request.mk BATCH_S .noParams .batchId ((Request.dumpList b).map Request.load)) := rfl
      rw [hstep, request_round_trip_members b hmem]
  · rintro ⟨res, code, msg, data, rid⟩ (hplain | ⟨hid, hcode, hmsg, hdata, rs, hres, hmem⟩)
    · exact (response_round_trip_plain _ hplain).2
    · have hid2 : rid = RId.batchId := hid
      have hcode2 : code = none := hcode
      have hmsg2 : msg = none := hmsg
      have hdata2 : data = none := hdata
      have hres2 : res = RespResult.batchOf rs := hres
      subst hid2; subst hcode2; subst hmsg2; subst hdata2; subst hres2
      have hstep : Response.deserialize (.val (Response.serialize
            (.mk (.batchOf rs) none none none .batchId)))
          = (match Response.loadList (Response.dumpList rs) with
             | .error e => .error e
             | .ok l => .ok (Response.mk (.batchOf l) none none none .batchId)) := rfl
      rw [hstep, response_round_trip_members rs hmem]

/-- C6 witness: a concrete request and a concrete failure response
round-trip through the wire unchanged. -/
theorem c6_round_trip_witness :
    Request.deserialize (.val (Request.serialize
        (.mk "sum" (.pos [.int 1, .int 2]) (.val (.int 1)) [])))
      = .ok (.mk "sum" (.pos [.int 1, .int 2]) (.val (.int 1)) [])
    ∧ Response.deserialize (.val (Response.serialize
        (.mk .missing (some (-32601)) (some "Method not found") none (.val (.int 2)))))
      = .ok (.mk .missing (some (-32601)) (some "Method not found") none (.val (.int 2))) :=
  ⟨c6_round_trip.1 _ (Or.inl ⟨rfl, rfl⟩),
   c6_round_trip.2 _ (Or.inl ⟨rfl, Or.inr ⟨rfl, ⟨-32601, rfl⟩, ⟨"Method not found", rfl⟩,
     fun h => Option.noConfusion h⟩⟩)⟩

mutual

/-- The concurrent resolver agrees with the blocking one on every
request; the two `try` bodies are definitionally the same function of
the registry once awaiting is the identity on completed values. -/
theorem resolve_async_eq_resolve (lookup : Registry) :
    ∀ r : Request, Request.resolve_async lookup r = Request.resolve lookup r
  | .mk m p i batch => by
    simp only [Request.resolve_async, Request.resolve]
    rw [resolveAsyncList_eq_resolveList lookup batch]
    rfl
termination_by structural r => r

/-- The gathered member resolutions agree with the sequential ones. -/
theorem resolveAsyncList_eq_resolveList (lookup : Registry) :
    ∀ rs : List Request, Request.resolveAsyncList lookup rs = Request.resolveList lookup rs
  | [] => rfl
  | r :: rs => by
    simp only [Request.resolveAsyncList, Request.resolveList]
    rw [resolve_async_eq_resolve lookup r, resolveAsyncList_eq_resolveList lookup rs]
termination_by structural l => l

end

/-- C7: for every request or batch and every registry, the suspending
resolver `resolve_async` produces the same optional response as the
blocking `resolve`: the same suppression of notifications, the same
error translation, and for a batch the same entries in the same
relative order, with no short-circuit on a member failure.  In the
embedding a suspending capability that computes the same values as its
blocking counterpart is the same function, so the two resolvers are
compared over one registry. -/
theorem c7_async_matches_sync :
    ∀ (lookup : Registry) (r : Request),
      Request.resolve_async lookup r = Request.resolve lookup r :=
  fun lookup r => resolve_async_eq_resolve lookup r

/-- Translating a tame failure on behalf of a non-notification request
always produces some response. -/
theorem make_some_of_tame (self : Request) (e : PyExc)
    (hid : self.id.isMissing = false) (ht : e.typeErrTame) :
    ∃ resp, self._make_from_exception e = .ok (some resp) := by
  obtain ⟨k, args⟩ := e
  cases k with
  | parseError => exact ⟨_, rfl⟩
  | invalidRequestError => exact ⟨_, rfl⟩
  | methodNotFoundError =>
    exact ⟨.mk .missing (some (-32601)) (some "Method not found") none self.id,
      by simp [Request._make_from_exception, hid]⟩
  | typeError =>
    obtain ⟨s, rest, hargs⟩ := ht rfl
    have hargs2 : args = JVal.str s :: rest := hargs
    subst hargs2
    cases hb1 : strContains s "positional argument" with
    | true =>
      exact ⟨.mk .missing (some (-32602)) (some "Invalid params")
          (some (Request.get_error_data ⟨.typeError, .str s :: rest⟩)) self.id,
        by simp [Request._make_from_exception, hid, pyIn, hb1]⟩
    | false =>
      cases hb2 : strContains s "keyword argument" with
      | true =>
        exact ⟨.mk .missing (some (-32602)) (some "Invalid params")
            (some (Request.get_error_data ⟨.typeError, .str s :: rest⟩)) self.id,
          by simp [Request._make_from_exception, hid, pyIn, hb1, hb2]⟩
      | false =>
        exact ⟨.mk .missing (some (-32000)) (some "Server error")
            (some (Request.get_error_data ⟨.typeError, .str s :: rest⟩)) self.id,
          by simp [Request._make_from_exception, hid, pyIn, hb1, hb2]⟩
  | invalidParamsError =>
    exact ⟨.mk .missing (some (-32000)) (some "Server error")
        (some (Request.get_error_data ⟨.invalidParamsError, args⟩)) self.id,
      by simp [Request._make_from_exception, hid]⟩
  | internalError =>
    exact ⟨.mk .missing (some (-32000)) (some "Server error")
        (some (Request.get_error_data ⟨.internalError, args⟩)) self.id,
      by simp [Request._make_from_exception, hid]⟩
  | serverError =>
    exact ⟨.mk .missing (some (-32000)) (some "Server error")
        (some (Request.get_error_data ⟨.serverError, args⟩)) self.id,
      by simp [Request._make_from_exception, hid]⟩
  | indexError =>
    exact ⟨.mk .missing (some (-32000)) (some "Server error")
        (some (Request.get_error_data ⟨.indexError, args⟩)) self.id,
      by simp [Request._make_from_exception, hid]⟩
  | other name =>
    exact ⟨.mk .missing (some (-32000)) (some "Server error")
        (some (Request.get_error_data ⟨.other name, args⟩)) self.id,
      by simp [Request._make_from_exception, hid]⟩

/-- Translating a non-protocol failure on behalf of a notification is
silent suppression. -/
theorem make_none_of_notification (self : Request) (e : PyExc)
    (hid : self.id.isMissing = true) (hp : e.noProtocolKind) :
    self._make_from_exception e = .ok none := by
  obtain ⟨k, args⟩ := e
  cases k with
  | parseError => exact absurd rfl hp.1
  | invalidRequestError => exact absurd rfl hp.2
  | methodNotFoundError => simp [Request._make_from_exception, hid]
  | typeError => simp [Request._make_from_exception, hid]
  | invalidParamsError => simp [Request._make_from_exception, hid]
  | internalError => simp [Request._make_from_exception, hid]
  | serverError => simp [Request._make_from_exception, hid]
  | indexError => simp [Request._make_from_exception, hid]
  | other name => simp [Request._make_from_exception, hid]

/-- When the sentinel checks pass and the method is registered, the
`try` body is the invocation with the positional or keyword arguments
the params dictate, followed by the notification check. -/
theorem tryResolveBody_invoke (m : String) (p : RParams) (i : RId) (b : List Request)
    (lookup : Registry) (f : Capability)
    (hpe : i.isParseErr = false) (hir : i.isInvalidReq = false)
    (hf : lookup.find m = some f) :
    Request.tryResolveBody (.mk m p i b) lookup
      = (match f p.posArgs p.kwArgs with
         | .error e => .error e
         | .ok res => if i.isMissing then .ok none
                      else .ok (some (.mk (.val res) none none none i))) := by
  cases p <;>
    simp [Request.tryResolveBody, Request._raise_if_cannot_resolve,
      Request.id, Request.method, Request.params, hpe, hir, hf,
      RParams.posArgs, RParams.kwArgs]

/-- A notification (no id) resolves to nothing as long as the
capability under its method name cannot raise the library protocol
exception classes; the invocation may succeed or raise anything
else. -/
theorem resolve_notification_none (lookup : Registry) (m : String) (p : RParams)
    (b : List Request)
    (htame : ∀ f, lookup.find m = some f →
      ∀ xs kvs e, f xs kvs = .error e → e.noProtocolKind) :
    Request.resolve lookup (.mk m p .missing b) = .ok none := by
  cases hf : lookup.find m with
  | none =>
    have hstep : Request.resolve lookup (.mk m p .missing b)
        = Request._make_from_exception (.mk m p .missing b) ⟨.methodNotFoundError, []⟩ := by
      simp [Request.resolve, RId.isBatch, Request.tryResolveBody,
        Request._raise_if_cannot_resolve, Request.id, Request.method,
        RId.isParseErr, RId.isInvalidReq, hf]
    rw [hstep]
    exact make_none_of_notification _ _ rfl
      ⟨fun h => ExcKind.noConfusion h, fun h => ExcKind.noConfusion h⟩
  | some f =>
    have hbody := tryResolveBody_invoke m p .missing b lookup f rfl rfl hf
    cases hcall : f p.posArgs p.kwArgs with
    | ok res =>
      simp [Request.resolve, RId.isBatch, hbody, hcall, RId.isMissing]
    | error e =>
      have hstep : Request.resolve lookup (.mk m p .missing b)
          = Request._make_from_exception (.mk m p .missing b) e := by
        simp [Request.resolve, RId.isBatch, hbody, hcall]
      rw [hstep]
      exact make_none_of_notification _ _ rfl (htame f hf p.posArgs p.kwArgs e hcall)

/-- A plain (non-batch) non-notification request resolves to some
response as long as any `TypeError` its capability can raise carries a
string first argument. -/
theorem resolve_plain_some (lookup : Registry) (m : String) (p : RParams) (i : RId)
    (b : List Request) (hmiss : i.isMissing = false) (hbatch : i.isBatch = false)
    (htame : ∀ f, lookup.find m = some f →
      ∀ xs kvs e, f xs kvs = .error e → e.typeErrTame) :
    ∃ resp, Request.resolve lookup (.mk m p i b) = .ok (some resp) := by
  cases i with
  | missing => simp [RId.isMissing] at hmiss
  | batchId => simp [RId.isBatch] at hbatch
  | parseErrId => exact ⟨_, rfl⟩
  | invalidReqId => exact ⟨_, rfl⟩
  | val v =>
    cases hf : lookup.find m with
    | none =>
      have hstep : Request.resolve lookup (.mk m p (.val v) b)
          = Request._make_from_exception (.mk m p (.val v) b) ⟨.methodNotFoundError, []⟩ := by
        simp [Request.resolve, RId.isBatch, Request.tryResolveBody,
          Request._raise_if_cannot_resolve, Request.id, Request.method,
          RId.isParseErr, RId.isInvalidReq, hf]
      rw [hstep]
      exact make_some_of_tame _ _ rfl (fun h => ExcKind.noConfusion h)
    | some f =>
      have hbody := tryResolveBody_invoke m p (.val v) b lookup f rfl rfl hf
      cases hcall : f p.posArgs p.kwArgs with
      | ok res =>
        exact ⟨.mk (.val res) none none none (.val v),
          by simp [Request.resolve, RId.isBatch, hbody, hcall, RId.isMissing]⟩
      | error e =>
        have hstep : Request.resolve lookup (.mk m p (.val v) b)
            = Request._make_from_exception (.mk m p (.val v) b) e := by
          simp [Request.resolve, RId.isBatch, hbody, hcall]
        rw [hstep]
        exact make_some_of_tame _ _ rfl (htame f hf p.posArgs p.kwArgs e hcall)

/-- An id slot that reports missing is the missing sentinel. -/
theorem RId.eq_missing_of_isMissing : ∀ i : RId, i.isMissing = true → i = .missing := by
  intro i h
  cases i <;> simp [RId.isMissing] at h ⊢

/-- Under a tame registry, the member resolutions of a list of plain
requests are exactly: nothing for each notification, some response for
every other member, in input order. -/
theorem resolveList_tame (lookup : Registry) (members : List Request)
    (hplain : ∀ r ∈ members, r.id.isBatch = false)
    (htame : Registry.tame lookup) :
    Request.resolveList lookup members
      = .ok (members.map (fun r => if r.id.isMissing then none else some (respOf lookup r))) := by
  induction members with
  | nil => rfl
  | cons q rest ih =>
    obtain ⟨hq, hrest⟩ := List.forall_mem_cons.mp hplain
    obtain ⟨mq, pq, iq, bq⟩ := q
    have hq2 : RId.isBatch iq = false := hq
    by_cases hm : RId.isMissing iq = true
    · have hiq : iq = .missing := RId.eq_missing_of_isMissing iq hm
      subst hiq
      have hres : Request.resolve lookup (.mk mq pq .missing bq) = .ok none :=
        resolve_notification_none lookup mq pq bq
          (fun f hf xs kvs e hcall => (htame mq f hf xs kvs e hcall).2)
      simp [Request.resolveList, hres, ih hrest, Request.id, RId.isMissing]
    · have hm2 : RId.isMissing iq = false := by
        cases hmm : RId.isMissing iq
        · rfl
        · exact absurd hmm hm
      obtain ⟨resp, hresp⟩ := resolve_plain_some lookup mq pq iq bq hm2 hq2
        (fun f hf xs kvs e hcall => (htame mq f hf xs kvs e hcall).1)
      have hro : respOf lookup (.mk mq pq iq bq) = resp := by
        simp [respOf, hresp]
      simp [Request.resolveList, hresp, ih hrest, Request.id, hm2, hro]

/-- Keeping the non-`None` entries of the member results keeps exactly
the responses of the non-notification members, in order. -/
theorem filterMap_notification_split (g : Request → Response) :
    ∀ members : List Request,
      (members.map (fun r => if r.id.isMissing then none else some (g r))).filterMap
          (fun x => x)
        = (members.filter (fun r => !r.id.isMissing)).map g := by
  intro members
  induction members with
  | nil => rfl
  | cons q rest ih =>
    by_cases hm : q.id.isMissing = true <;>
      simp [hm, ih, List.filter_cons, List.filterMap_cons]

/-- C2 (amended): for every batch of plain (non-batch) members and
every tame registry — no capability raises the library protocol
exception classes or a `TypeError` without a string first argument —
the batch resolves to the batch response whose entries are exactly the
resolutions of the non-notification members, in their input order
(hence exactly `n` entries for `n` non-notification members); when
that entry list is empty the whole batch resolves to nothing. -/
theorem c2_batch_shape_amended (lookup : Registry) (members : List Request)
    (hplain : ∀ r ∈ members, r.id.isBatch = false)
    (htame : Registry.tame lookup) :
    Request.resolve lookup (Request.batch members)
      = (if ((members.filter (fun r => !r.id.isMissing)).map (respOf lookup)).isEmpty
         then .ok none
         else .ok (some (.mk
             (.batchOf ((members.filter (fun r => !r.id.isMissing)).map (respOf lookup)))
             none none none .batchId))) := by
  have hlist := resolveList_tame lookup members hplain htame
  have hsplit := filterMap_notification_split (respOf lookup) members
  simp only [Request.batch, Request.resolve, RId.isBatch, hlist, hsplit, if_true]

/-- C2 counterexample: the batch `[notification for "boom"]` has zero
non-notification members, so the claim as stated requires it to
resolve to nothing for every registry; under the registry whose
capability raises the library `ParseError`, it instead resolves to a
one-entry batch response. -/
theorem c2_counterexample :
    Request.resolve [("boom", fun _ _ => .error ⟨.parseError, []⟩)]
        (Request.batch [.mk "boom" .noParams .missing []])
      ≠ .ok none := by
  have h : Request.resolve [("boom", fun _ _ => .error ⟨.parseError, []⟩)]
        (Request.batch [.mk "boom" .noParams .missing []])
      = .ok (some (.mk
          (.batchOf [.mk .missing (some (-32700)) (some "Parse error") none (.val .null)])
          none none none .batchId)) := rfl
  rw [h]
  intro hcontra
  injection hcontra with h2
  exact Option.noConfusion h2

/-- C2 witness: a two-member batch (one request, one notification)
against the empty registry resolves to the one-entry batch response
the amended statement describes. -/
theorem c2_batch_shape_witness :
    Request.resolve [] (Request.batch
        [.mk "a" .noParams (.val (.int 1)) [], .mk "b" .noParams .missing []])
      = (if (([Request.mk "a" .noParams (.val (.int 1)) [],
              Request.mk "b" .noParams .missing []].filter
                (fun r => !r.id.isMissing)).map (respOf [])).isEmpty
         then .ok none
         else .ok (some (.mk
             (.batchOf (([Request.mk "a" .noParams (.val (.int 1)) [],
               Request.mk "b" .noParams .missing []].filter
                 (fun r => !r.id.isMissing)).map (respOf [])))
             none none none .batchId))) :=
  c2_batch_shape_amended []
    [.mk "a" .noParams (.val (.int 1)) [], .mk "b" .noParams .missing []]
    (by intro r hr; fin_cases hr <;> rfl)
    (by intro m f hf; simp [Registry.find] at hf)

/-- C3 counterexample: a notification whose capability raises the
library `ParseError` resolves to a parse-error response, not to
nothing. -/
theorem c3_counterexample :
    Request.resolve [("boom", fun _ _ => .error ⟨.parseError, []⟩)]
        (.mk "boom" .noParams .missing [])
      = .ok (some (.mk .missing (some (-32700)) (some "Parse error") none (.val .null))) := rfl

/-- C3 (amended): a request with no id resolves to nothing for every
registry whose capabilities never raise the library `ParseError` or
`InvalidRequestError` classes, regardless of whether the invocation
succeeds, raises an arity or type mismatch, or raises anything
else. -/
theorem c3_notification_amended (lookup : Registry) (m : String) (p : RParams)
    (b : List Request)
    (htame : ∀ f, lookup.find m = some f →
      ∀ xs kvs e, f xs kvs = .error e → e.noProtocolKind) :
    Request.resolve lookup (.mk m p .missing b) = .ok none :=
  resolve_notification_none lookup m p b htame

/-- C3 witness: a notification for a registered, succeeding capability
resolves to nothing. -/
theorem c3_notification_witness :
    Request.resolve [("sum", fun _ _ => .ok (.int 7))]
        (.mk "sum" (.pos [.int 1]) .missing [])
      = .ok none :=
  c3_notification_amended _ "sum" _ _ (by
    intro f hf xs kvs e hcall
    simp [Registry.find] at hf
    subst hf
    simp at hcall)

/-- C5: for every method name absent from the registry, a plain
non-notification request for it resolves to the failure response with
code -32601, message Method not found, no data, and the original id;
the notification form is suppressed. -/
theorem c5_method_not_found (lookup : Registry) (m : String) (p : RParams) (v : JVal)
    (b bn : List Request) (habsent : lookup.find m = none) :
    Request.resolve lookup (.mk m p (.val v) b)
      = .ok (some (.mk .missing (some (-32601)) (some "Method not found") none (.val v)))
    ∧ Request.resolve lookup (.mk m p .missing bn) = .ok none := by
  constructor
  · have hstep : Request.resolve lookup (.mk m p (.val v) b)
        = Request._make_from_exception (.mk m p (.val v) b) ⟨.methodNotFoundError, []⟩ := by
      simp [Request.resolve, RId.isBatch, Request.tryResolveBody,
        Request._raise_if_cannot_resolve, Request.id, Request.method,
        RId.isParseErr, RId.isInvalidReq, habsent]
    rw [hstep]
    simp [Request._make_from_exception, Request.id, RId.isMissing]
  · have hstep : Request.resolve lookup (.mk m p .missing bn)
        = Request._make_from_exception (.mk m p .missing bn) ⟨.methodNotFoundError, []⟩ := by
      simp [Request.resolve, RId.isBatch, Request.tryResolveBody,
        Request._raise_if_cannot_resolve, Request.id, Request.method,
        RId.isParseErr, RId.isInvalidReq, habsent]
    rw [hstep]
    simp [Request._make_from_exception, Request.id, RId.isMissing]

/-- C5 witness: the absent method scenario of the specification. -/
theorem c5_method_not_found_witness :
    Request.resolve [] (.mk "absent" .noParams (.val (.int 2)) [])
      = .ok (some (.mk .missing (some (-32601)) (some "Method not found") none (.val (.int 2))))
    ∧ Request.resolve [] (.mk "absent" .noParams .missing []) = .ok none :=
  c5_method_not_found [] "absent" .noParams (.int 2) [] [] rfl

/-- C1 at its failing input: a registered capability that raises a
bare `TypeError()` (empty `args`) on a non-notification request makes
`resolve` itself raise — line 276 subscripts `err.args[0]`, which
raises `IndexError` inside the handler — contradicting the contract
that no invocation failure ever propagates to the caller of
`resolve`. -/
theorem c1_resolve_raises_on_bare_typeerror :
    Request.resolve [("m", fun _ _ => .error ⟨.typeError, []⟩)]
        (.mk "m" .noParams (.val (.int 1)) [])
      = .error ⟨.indexError, [.str "tuple index out of range"]⟩ := rfl

/-- C4 counterexample: on undecodable bytes (for example the single
byte 0xff) the `UnicodeDecodeError` raised inside `json.loads` is not
a `json.JSONDecodeError`, so line 337 does not catch it and
`Request.deserialize` raises instead of returning a Request, refuting
the claim that deserialization never raises for any byte string. -/
theorem c4_counterexample :
    Request.deserialize .undecodable = .error ⟨.other "UnicodeDecodeError", []⟩ := rfl

/-- C4 (amended): for every byte string that decodes as text,
`Request.deserialize` returns a Request without raising, and when the
text is not parseable JSON the result resolves, for every registry, to
exactly the parse error response — null id, code -32700, message Parse
error, and no data field in its rendered wire form; bytes that are not
valid UTF-8 instead make `deserialize` itself raise the uncaught
`UnicodeDecodeError`. -/
theorem c4_parse_error_amended (lookup : Registry) :
    Request.deserialize .decodeError
      = .ok (.mk PARSE_ERROR_S (.pos [.str PARSE_ERROR_S]) .parseErrId [])
    ∧ Request.resolve lookup (.mk PARSE_ERROR_S (.pos [.str PARSE_ERROR_S]) .parseErrId [])
      = .ok (some (.mk .missing (some (-32700)) (some "Parse error") none (.val .null)))
    ∧ Response.dump (.mk .missing (some (-32700)) (some "Parse error") none (.val .null))
      = .obj [("jsonrpc", .str "2.0"), ("id", .null),
              ("error", .obj [("code", .int (-32700)), ("message", .str "Parse error")])]
    ∧ Request.deserialize .undecodable = .error ⟨.other "UnicodeDecodeError", []⟩ :=
  ⟨rfl, rfl, rfl, rfl⟩

/-- C9 counterexample: the empty JSON array deserializes to the empty
batch, which resolves to nothing — not to the well-formed failure
response the claim asserts — already under the empty registry. -/
theorem c9_counterexample :
    Request.deserialize (.val (.arr [])) = .ok (Request.batch [])
    ∧ Request.resolve [] (Request.batch []) = .ok none :=
  ⟨rfl, rfl⟩

/-- C9 (amended): an empty JSON array deserializes to an empty batch
whose resolution is suppressed for every registry: the implementation
treats it like an all-notification batch and never emits the
protocol-mandated invalid-request response for it. -/
theorem c9_empty_batch_amended (lookup : Registry) :
    Request.deserialize (.val (.arr [])) = .ok (Request.batch [])
    ∧ Request.resolve lookup (Request.batch []) = .ok none :=
  ⟨rfl, rfl⟩

/-- A schema entry of an unsupported category rejects any present
value: the equality branch of line 86 compares the value with a
non-JSON schema constant, which never succeeds. -/
theorem entriesOk_false_of_unsupported (fields : List (String × JVal)) (key : String)
    (hpresent : hasField fields (stripQ key) = true) :
    ∀ schema : List (String × SType), (key, SType.unsupported) ∈ schema →
      entriesOk fields schema = false := by
  intro schema hmem
  induction schema with
  | nil => cases hmem
  | cons entry rest ih =>
    rcases List.mem_cons.mp hmem with heq | hmem2
    · obtain ⟨value, hlf⟩ : ∃ value, lookupField fields (stripQ key) = some value := by
        cases hl : lookupField fields (stripQ key) with
        | none => simp [hasField, hl] at hpresent
        | some value => exact ⟨value, rfl⟩
      rw [← heq]
      simp [entriesOk, hpresent, hlf, checkValue]
    · simp [entriesOk, ih hmem2]

/-- C8 counterexample: with a one-entry schema whose declared type is
of an unsupported category and an object carrying that key, the
validator returns the boolean false — it silently rejects instead of
raising the configuration failure the claim asserts — and for a
non-dict value it returns false without ever reaching the entry. -/
theorem c8_counterexample :
    _validate_schema (.obj [("k", .int 1)]) [("k", SType.unsupported)] = false
    ∧ _validate_schema (.int 5) [("k", SType.unsupported)] = false :=
  ⟨rfl, rfl⟩

/-- C8 (amended): the validator is a total boolean function on every
value and schema; a schema type outside the supported categories is
not detected as a configuration error but lands in the
literal-equality fallback, so any object whose checked field carries
such a type is silently rejected. -/
theorem c8_validator_amended (fields : List (String × JVal))
    (schema : List (String × SType)) (key : String)
    (hmem : (key, SType.unsupported) ∈ schema)
    (hpresent : hasField fields (stripQ key) = true) :
    _validate_schema (.obj fields) schema = false := by
  have hent := entriesOk_false_of_unsupported fields key hpresent schema hmem
  simp [_validate_schema, checkValue, hent]

/-- C8 witness: the amended statement at a two-entry schema whose
second entry declares an unsupported type. -/
theorem c8_validator_witness :
    _validate_schema (.obj [("k", .bool true)])
        [("a", SType.anyVal), ("k", SType.unsupported)] = false :=
  c8_validator_amended [("k", .bool true)] [("a", SType.anyVal), ("k", SType.unsupported)]
    "k" (List.mem_cons_of_mem _ (List.mem_singleton.mpr rfl)) rfl

/-- The `try` body yields a response only for a success, and that
response is a success response carrying the request id. -/
theorem tryResolveBody_some_shape (self : Request) (lookup : Registry) (resp : Response)
    (h : Request.tryResolveBody self lookup = .ok (some resp)) :
    ∃ res, resp = .mk (.val res) none none none self.id := by
  unfold Request.tryResolveBody at h
  split at h
  · exact absurd h (by simp)
  · split at h
    · exact absurd h (by simp)
    · split at h
      · exact absurd h (by simp)
      · split at h
        · exact absurd h (by simp)
        · injection h with h1
          injection h1 with h2
          exact ⟨_, h2.symm⟩

/-- Every response the exception translation produces avoids code
-32603: the translation only ever writes -32700, -32600, -32601,
-32602 or -32000. -/
theorem make_codeIsNot (self : Request) (e : PyExc) (resp : Response)
    (h : self._make_from_exception e = .ok (some resp)) :
    Response.codeIsNot (-32603) resp = true := by
  obtain ⟨k, args⟩ := e
  by_cases hmi : self.id.isMissing = true
  · cases k with
    | parseError =>
      have h2 : Response.mk .missing (some (-32700)) (some "Parse error") none (.val .null)
          = resp := by
        simpa [Request._make_from_exception] using h
      rw [← h2]
      rfl
    | invalidRequestError =>
      have h2 : Response.mk .missing (some (-32600)) (some "Invalid Request") none (.val .null)
          = resp := by
        simpa [Request._make_from_exception] using h
      rw [← h2]
      rfl
    | methodNotFoundError => simp [Request._make_from_exception, hmi] at h
    | typeError => simp [Request._make_from_exception, hmi] at h
    | invalidParamsError => simp [Request._make_from_exception, hmi] at h
    | internalError => simp [Request._make_from_exception, hmi] at h
    | serverError => simp [Request._make_from_exception, hmi] at h
    | indexError => simp [Request._make_from_exception, hmi] at h
    | other name => simp [Request._make_from_exception, hmi] at h
  · have hmi2 : self.id.isMissing = false := by
      cases hx : self.id.isMissing
      · rfl
      · exact absurd hx hmi
    cases k with
    | parseError =>
      have h2 : Response.mk .missing (some (-32700)) (some "Parse error") none (.val .null)
          = resp := by
        simpa [Request._make_from_exception] using h
      rw [← h2]
      rfl
    | invalidRequestError =>
      have h2 : Response.mk .missing (some (-32600)) (some "Invalid Request") none (.val .null)
          = resp := by
        simpa [Request._make_from_exception] using h
      rw [← h2]
      rfl
    | methodNotFoundError =>
      have h2 : Response.mk .missing (some (-32601)) (some "Method not found") none self.id
          = resp := by
        simpa [Request._make_from_exception, hmi2] using h
      rw [← h2]
      rfl
    | typeError =>
      cases args with
      | nil => simp [Request._make_from_exception, hmi2] at h
      | cons a0 atail =>
        cases a0 with
        | str s =>
          cases hb1 : strContains s "positional argument" with
          | true =>
            have h2 : Response.mk .missing (some (-32602)) (some "Invalid params")
                (some (Request.get_error_data ⟨.typeError, .str s :: atail⟩)) self.id
                = resp := by
              simpa [Request._make_from_exception, hmi2, pyIn, hb1] using h
            rw [← h2]
            rfl
          | false =>
            cases hb2 : strContains s "keyword argument" with
            | true =>
              have h2 : Response.mk .missing (some (-32602)) (some "Invalid params")
                  (some (Request.get_error_data ⟨.typeError, .str s :: atail⟩)) self.id
                  = resp := by
                simpa [Request._make_from_exception, hmi2, pyIn, hb1, hb2] using h
              rw [← h2]
              rfl
            | false =>
              have h2 : Response.mk .missing (some (-32000)) (some "Server error")
                  (some (Request.get_error_data ⟨.typeError, .str s :: atail⟩)) self.id
                  = resp := by
                simpa [Request._make_from_exception, hmi2, pyIn, hb1, hb2] using h
              rw [← h2]
              rfl
        | arr xs =>
          cases hb1 : xs.any (fun x => jeq x (.str "positional argument")) with
          | true =>
            have h2 : Response.mk .missing (some (-32602)) (some "Invalid params")
                (some (Request.get_error_data ⟨.typeError, .arr xs :: atail⟩)) self.id
                = resp := by
              simpa [Request._make_from_exception, hmi2, pyIn, hb1] using h
            rw [← h2]
            rfl
          | false =>
            cases hb2 : xs.any (fun x => jeq x (.str "keyword argument")) with
            | true =>
              have h2 : Response.mk .missing (some (-32602)) (some "Invalid params")
                  (some (Request.get_error_data ⟨.typeError, .arr xs :: atail⟩)) self.id
                  = resp := by
                simpa [Request._make_from_exception, hmi2, pyIn, hb1, hb2] using h
              rw [← h2]
              rfl
            | false =>
              have h2 : Response.mk .missing (some (-32000)) (some "Server error")
                  (some (Request.get_error_data ⟨.typeError, .arr xs :: atail⟩)) self.id
                  = resp := by
                simpa [Request._make_from_exception, hmi2, pyIn, hb1, hb2] using h
              rw [← h2]
              rfl
        | obj fs =>
          cases hb1 : fs.any (fun kv => kv.1 == "positional argument") with
          | true =>
            have h2 : Response.mk .missing (some (-32602)) (some "Invalid params")
                (some (Request.get_error_data ⟨.typeError, .obj fs :: atail⟩)) self.id
                = resp := by
              simpa [Request._make_from_exception, hmi2, pyIn, hb1] using h
            rw [← h2]
            rfl
          | false =>
            cases hb2 : fs.any (fun kv => kv.1 == "keyword argument") with
            | true =>
              have h2 : Response.mk .missing (some (-32602)) (some "Invalid params")
                  (some (Request.get_error_data ⟨.typeError, .obj fs :: atail⟩)) self.id
                  = resp := by
                simpa [Request._make_from_exception, hmi2, pyIn, hb1, hb2] using h
              rw [← h2]
              rfl
            | false =>
              have h2 : Response.mk .missing (some (-32000)) (some "Server error")
                  (some (Request.get_error_data ⟨.typeError, .obj fs :: atail⟩)) self.id
                  = resp := by
                simpa [Request._make_from_exception, hmi2, pyIn, hb1, hb2] using h
              rw [← h2]
              rfl
        | null => simp [Request._make_from_exception, hmi2, pyIn] at h
        | bool b => simp [Request._make_from_exception, hmi2, pyIn] at h
        | int n => simp [Request._make_from_exception, hmi2, pyIn] at h
    | invalidParamsError =>
      have h2 : Response.mk .missing (some (-32000)) (some "Server error")
          (some (Request.get_error_data ⟨.invalidParamsError, args⟩)) self.id = resp := by
        simpa [Request._make_from_exception, hmi2] using h
      rw [← h2]
      rfl
    | internalError =>
      have h2 : Response.mk .missing (some (-32000)) (some "Server error")
          (some (Request.get_error_data ⟨.internalError, args⟩)) self.id = resp := by
        simpa [Request._make_from_exception, hmi2] using h
      rw [← h2]
      rfl
    | serverError =>
      have h2 : Response.mk .missing (some (-32000)) (some "Server error")
          (some (Request.get_error_data ⟨.serverError, args⟩)) self.id = resp := by
        simpa [Request._make_from_exception, hmi2] using h
      rw [← h2]
      rfl
    | indexError =>
      have h2 : Response.mk .missing (some (-32000)) (some "Server error")
          (some (Request.get_error_data ⟨.indexError, args⟩)) self.id = resp := by
        simpa [Request._make_from_exception, hmi2] using h
      rw [← h2]
      rfl
    | other name =>
      have h2 : Response.mk .missing (some (-32000)) (some "Server error")
          (some (Request.get_error_data ⟨.other name, args⟩)) self.id = resp := by
        simpa [Request._make_from_exception, hmi2] using h
      rw [← h2]
      rfl

mutual

/-- No resolution ever emits a response whose code tree carries
-32603. -/
theorem resolve_codeIsNot (lookup : Registry) :
    ∀ (r : Request) (resp : Response),
      Request.resolve lookup r = .ok (some resp) → Response.codeIsNot (-32603) resp = true
  | .mk m p i batch, resp, h => by
    by_cases hb : RId.isBatch i = true
    · have hi : i = .batchId := by
        cases i <;> simp [RId.isBatch] at hb ⊢
      subst hi
      cases hl : Request.resolveList lookup batch with
      | error e => simp [Request.resolve, RId.isBatch, hl] at h
      | ok results =>
        by_cases he : (results.filterMap (fun x => x)).isEmpty = true
        · simp [Request.resolve, RId.isBatch, hl, he] at h
        · have hr : Response.mk (.batchOf (results.filterMap (fun x => x)))
              none none none .batchId = resp := by
            simpa [Request.resolve, RId.isBatch, hl, he] using h
          rw [← hr]
          have hlist := resolveList_codeIsNot lookup batch results hl
          simpa [Response.codeIsNot] using hlist
    · have hb2 : RId.isBatch i = false := by
        cases hx : RId.isBatch i
        · rfl
        · exact absurd hx hb
      cases hbody : Request.tryResolveBody (.mk m p i batch) lookup with
      | ok v =>
        have hstep : Request.resolve lookup (.mk m p i batch) = .ok v := by
          simp [Request.resolve, hb2, hbody]
        rw [hstep] at h
        injection h with h1
        subst h1
        obtain ⟨res, hshape⟩ := tryResolveBody_some_shape _ lookup resp hbody
        rw [hshape]
        rfl
      | error e =>
        have hstep : Request.resolve lookup (.mk m p i batch)
            = Request._make_from_exception (.mk m p i batch) e := by
          simp [Request.resolve, hb2, hbody]
        rw [hstep] at h
        exact make_codeIsNot _ e resp h
termination_by structural r => r

/-- No member resolution of a batch contributes a response whose code
tree carries -32603. -/
theorem resolveList_codeIsNot (lookup : Registry) :
    ∀ (rs : List Request) (results : List (Option Response)),
      Request.resolveList lookup rs = .ok results →
      Response.listCodeIsNot (-32603) (results.filterMap (fun x => x)) = true
  | [], results, h => by
    injection h with h2
    subst h2
    rfl
  | r :: rest, results, h => by
    cases h1 : Request.resolve lookup r with
    | error e => simp [Request.resolveList, h1] at h
    | ok x =>
      cases h2 : Request.resolveList lookup rest with
      | error e => simp [Request.resolveList, h1, h2] at h
      | ok xs =>
        have hres : x :: xs = results := by
          simpa [Request.resolveList, h1, h2] using h
        rw [← hres]
        cases x with
        | none => simpa using resolveList_codeIsNot lookup rest xs h2
        | some resp1 =>
          simp only [List.filterMap_cons, Response.listCodeIsNot, Bool.and_eq_true]
          exact ⟨resolve_codeIsNot lookup r resp1 h1, resolveList_codeIsNot lookup rest xs h2⟩
termination_by structural l => l

end

/-- C10 counterexample: a capability raising the library
`MethodNotFoundError` — an exception that is not a TypeError with the
magic substrings — yields a response with code -32601, not the
asserted -32000. -/
theorem c10_counterexample :
    Request.resolve [("m", fun _ _ => .error ⟨.methodNotFoundError, []⟩)]
        (.mk "m" .noParams (.val (.int 1)) [])
      = .ok (some (.mk .missing (some (-32601)) (some "Method not found")
          none (.val (.int 1)))) := rfl

/-- C10 (amended): for a non-notification request whose capability
raises, classification depends on the exception.  A `TypeError` whose
first argument is a string yields code -32602 (Invalid params) exactly
when that string contains the substring positional argument or keyword
argument, and -32000 (Server error) with data type and info otherwise.
A `TypeError` whose first argument is a list is classified by Python
membership — line 276 applies `in` to the argument — so it yields
-32602 exactly when the list contains one of those two exact strings
as an element, else -32000 with the same data.  Any raised exception
that is none of the library exception classes and not a `TypeError`
yields -32000 with the same data; a capability raising a library class
is instead mapped to that class of response (the counterexample); and
no resolution ever produces code -32603. -/
theorem c10_classification_amended :
    (∀ (lookup : Registry) (m : String) (p : RParams) (v : JVal) (f : Capability)
       (s : String) (rest : List JVal),
       lookup.find m = some f →
       f p.posArgs p.kwArgs = .error ⟨.typeError, .str s :: rest⟩ →
       Request.resolve lookup (.mk m p (.val v) [])
         = .ok (some (if strContains s "positional argument"
                        || strContains s "keyword argument"
             then .mk .missing (some (-32602)) (some "Invalid params")
                    (some (Request.get_error_data ⟨.typeError, .str s :: rest⟩)) (.val v)
             else .mk .missing (some (-32000)) (some "Server error")
                    (some (Request.get_error_data ⟨.typeError, .str s :: rest⟩)) (.val v))))
    ∧ (∀ (lookup : Registry) (m : String) (p : RParams) (v : JVal) (f : Capability)
         (xs : List JVal) (rest : List JVal),
       lookup.find m = some f →
       f p.posArgs p.kwArgs = .error ⟨.typeError, .arr xs :: rest⟩ →
       Request.resolve lookup (.mk m p (.val v) [])
         = .ok (some (if xs.any (fun x => jeq x (.str "positional argument"))
                        || xs.any (fun x => jeq x (.str "keyword argument"))
             then .mk .missing (some (-32602)) (some "Invalid params")
                    (some (Request.get_error_data ⟨.typeError, .arr xs :: rest⟩)) (.val v)
             else .mk .missing (some (-32000)) (some "Server error")
                    (some (Request.get_error_data ⟨.typeError, .arr xs :: rest⟩)) (.val v))))
    ∧ (∀ (lookup : Registry) (m : String) (p : RParams) (v : JVal) (f : Capability)
         (e : PyExc),
       lookup.find m = some f →
       f p.posArgs p.kwArgs = .error e →
       e.kind ≠ .parseError → e.kind ≠ .invalidRequestError →
       e.kind ≠ .methodNotFoundError → e.kind ≠ .typeError →
       Request.resolve lookup (.mk m p (.val v) [])
         = .ok (some (.mk .missing (some (-32000)) (some "Server error")
             (some (Request.get_error_data e)) (.val v))))
    ∧ (∀ (lookup : Registry) (r : Request) (resp : Response),
       Request.resolve lookup r = .ok (some resp) →
       Response.codeIsNot (-32603) resp = true) := by
  refine ⟨?_, ?_, ?_, ?_⟩
  · intro lookup m p v f s rest hf hcall
    have hbody := tryResolveBody_invoke m p (.val v) [] lookup f rfl rfl hf
    have hstep : Request.resolve lookup (.mk m p (.val v) [])
        = Request._make_from_exception (.mk m p (.val v) [])
            ⟨.typeError, .str s :: rest⟩ := by
      simp [Request.resolve, RId.isBatch, hbody, hcall]
    rw [hstep]
    cases hb1 : strContains s "positional argument" with
    | true =>
      simp [Request._make_from_exception, Request.id, RId.isMissing, pyIn, hb1]
    | false =>
      cases hb2 : strContains s "keyword argument" with
      | true =>
        simp [Request._make_from_exception, Request.id, RId.isMissing, pyIn, hb1, hb2]
      | false =>
        simp [Request._make_from_exception, Request.id, RId.isMissing, pyIn, hb1, hb2]
  · intro lookup m p v f xs rest hf hcall
    have hbody := tryResolveBody_invoke m p (.val v) [] lookup f rfl rfl hf
    have hstep : Request.resolve lookup (.mk m p (.val v) [])
        = Request._make_from_exception (.mk m p (.val v) [])
            ⟨.typeError, .arr xs :: rest⟩ := by
      simp [Request.resolve, RId.isBatch, hbody, hcall]
    rw [hstep]
    cases hb1 : xs.any (fun x => jeq x (.str "positional argument")) with
    | true =>
      simp [Request._make_from_exception, Request.id, RId.isMissing, pyIn, hb1]
    | false =>
      cases hb2 : xs.any (fun x => jeq x (.str "keyword argument")) with
      | true =>
        simp [Request._make_from_exception, Request.id, RId.isMissing, pyIn, hb1, hb2]
      | false =>
        simp [Request._make_from_exception, Request.id, RId.isMissing, pyIn, hb1, hb2]
  · intro lookup m p v f e hf hcall h1 h2 h3 h4
    have hbody := tryResolveBody_invoke m p (.val v) [] lookup f rfl rfl hf
    have hstep : Request.resolve lookup (.mk m p (.val v) [])
        = Request._make_from_exception (.mk m p (.val v) []) e := by
      simp [Request.resolve, RId.isBatch, hbody, hcall]
    rw [hstep]
    obtain ⟨k, args⟩ := e
    cases k with
    | parseError => exact absurd rfl h1
    | invalidRequestError => exact absurd rfl h2
    | methodNotFoundError => exact absurd rfl h3
    | typeError => exact absurd rfl h4
    | invalidParamsError =>
      simp [Request._make_from_exception, Request.id, RId.isMissing]
    | internalError =>
      simp [Request._make_from_exception, Request.id, RId.isMissing]
    | serverError =>
      simp [Request._make_from_exception, Request.id, RId.isMissing]
    | indexError =>
      simp [Request._make_from_exception, Request.id, RId.isMissing]
    | other name =>
      simp [Request._make_from_exception, Request.id, RId.isMissing]
  · intro lookup r resp h
    exact resolve_codeIsNot lookup r resp h

/-- C10 witness: the arity-mismatch `TypeError` text of a Python call
is classified as Invalid params. -/
theorem c10_classification_witness :
    Request.resolve
        [("m", fun _ _ =>
          .error ⟨.typeError, [.str "m() takes 2 positional arguments but 3 were given"]⟩)]
        (.mk "m" (.pos [.int 1, .int 2, .int 3]) (.val (.int 7)) [])
      = .ok (some (if strContains "m() takes 2 positional arguments but 3 were given"
                      "positional argument"
                    || strContains "m() takes 2 positional arguments but 3 were given"
                      "keyword argument"
          then .mk .missing (some (-32602)) (some "Invalid params")
                 (some (Request.get_error_data ⟨.typeError,
                   [.str "m() takes 2 positional arguments but 3 were given"]⟩)) (.val (.int 7))
          else .mk .missing (some (-32000)) (some "Server error")
                 (some (Request.get_error_data ⟨.typeError,
                   [.str "m() takes 2 positional arguments but 3 were given"]⟩)) (.val (.int 7)))) :=
  c10_classification_amended.1
    [("m", fun _ _ =>
      .error ⟨.typeError, [.str "m() takes 2 positional arguments but 3 were given"]⟩)]
    "m" (.pos [.int 1, .int 2, .int 3]) (.int 7)
    (fun _ _ =>
      .error ⟨.typeError, [.str "m() takes 2 positional arguments but 3 were given"]⟩)
    "m() takes 2 positional arguments but 3 were given" [] rfl rfl
